import Mathlib

/-
Verification of the LUXBIN Content Mirror and Replica-Consistency Engine
against its design specification.

The development shallowly embeds the mirror subsystem of the repository:
`QuantumWebMirror` (luxbin_web_mirror.py) and `LUXBINGamingMirror`
(luxbin_gaming_mirror.py).  External collaborators (HTTP fetcher, light
converter, DHT, entangler, name system, hashing) are modelled as oracle
inputs: each call into a collaborator either returns a value supplied by
the environment or raises, and each possible raise point of the Python
code is a Boolean flag of the environment.  Python dictionaries become
association lists, floats become rationals, and in-place mutation of the
service object becomes explicit state passing.
-/

namespace LuxbinMirror

/-- Embeds the dataclass MirrorRecord of luxbin_web_mirror.py: the record of
one mirrored webpage. -/
structure MirrorRecord where
  http_url : String
  luxbin_address : String
  content_hash : String
  mirror_nodes : List String
  last_updated : ℚ
  wavelength_encoded : Bool
  acoustic_encoded : Bool
  entanglement_verified : Bool
deriving DecidableEq

/-- Embeds the mutable state of a QuantumWebMirror instance: the configured
quantum backends, the mirror registry (a Python dict, modelled as an
association list keyed by URL), the visited-URL set of the current crawl,
and the configuration fields set in the constructor. -/
structure QuantumWebMirror where
  quantum_backends : List String
  mirrors : List (String × MirrorRecord)
  visited_urls : List String
  mirror_replication : Nat
  acoustic_encoding_enabled : Bool
deriving DecidableEq

/-- Python dict assignment `d[k] = v` on an association list: overwrite the
existing binding for the key if present, otherwise append a new binding. -/
def upsert (l : List (String × MirrorRecord)) (k : String) (v : MirrorRecord) :
    List (String × MirrorRecord) :=
  if l.any (fun p => p.1 = k) then
    l.map (fun p => if p.1 = k then (k, v) else p)
  else
    l ++ [(k, v)]

/-- Python dict lookup `d.get(k)` on an association list. -/
def lookupRecord (l : List (String × MirrorRecord)) (k : String) :
    Option MirrorRecord :=
  (l.find? (fun p => p.1 = k)).map (fun p => p.2)

/-- The consistency threshold: the literal 0.7 compared against the
entanglement correlation in entangle_mirrors (luxbin_web_mirror.py line 362). -/
def CONSISTENCY_THRESHOLD : ℚ := mkRat 7 10

/-- Environment of one mirror_page call: the values produced by, and the
raise behaviour of, every external collaborator the call touches.
fetchOk is false when the HTTP fetch raises or returns a non-200 status;
the Boolean raise flags mark the collaborator calls that can raise inside
the try block of mirror_page; correlation is the score the entangler
measurement returns when it does not raise; luxbinAddr, contentHash and
timestamp are the DHT store result, the truncated sha256 digest and the
time.time() value observed by the call. -/
structure PageEnv where
  fetchOk : Bool
  convertRaises : Bool
  storeRaises : Bool
  verifierRaises : Bool
  registerRaises : Bool
  correlation : ℚ
  luxbinAddr : String
  contentHash : String
  timestamp : ℚ
deriving DecidableEq

/-- Embeds entangle_mirrors (luxbin_web_mirror.py lines 327-367): the
entangler calls may raise (error case); otherwise the method returns
whether the measured correlation exceeds 0.7. -/
def entangle_mirrors (verifierRaises : Bool) (correlation : ℚ) :
    Except Unit Bool :=
  if verifierRaises then Except.error ()
  else if correlation > CONSISTENCY_THRESHOLD then Except.ok true
  else Except.ok false

/-- Embeds mirror_page (luxbin_web_mirror.py lines 143-217).  The whole body
is one try block whose except clause returns None, so any raise — and a
non-200 status — yields (unchanged state, none).  On the success path the
method builds a MirrorRecord whose mirror_nodes is the slice
quantum_backends[:mirror_replication], stores it in the mirrors dict and
returns it.  The registry write `self.mirrors[url] = record` is the only
mutation of the service state in the body, and it happens last, so every
failure path leaves the state unchanged. -/
def mirror_page (m : QuantumWebMirror) (url : String) (e : PageEnv) :
    QuantumWebMirror × Option MirrorRecord :=
  if !e.fetchOk then (m, none)
  else if e.convertRaises then (m, none)
  else if e.storeRaises then (m, none)
  else
    match entangle_mirrors e.verifierRaises e.correlation with
    | Except.error _ => (m, none)
    | Except.ok verified =>
      if e.registerRaises then (m, none)
      else
        let r : MirrorRecord :=
          { http_url := url
            luxbin_address := e.luxbinAddr
            content_hash := e.contentHash
            mirror_nodes := m.quantum_backends.take m.mirror_replication
            last_updated := e.timestamp
            wavelength_encoded := true
            acoustic_encoded := m.acoustic_encoding_enabled
            entanglement_verified := verified }
        ({ m with mirrors := upsert m.mirrors url r }, some r)

/-- Embeds one iteration of the loop body of sync_mirrors
(luxbin_web_mirror.py lines 496-503): records with entanglement_verified
true are skipped; for the others entangle_mirrors is re-invoked (its fresh
correlation supplied by the scores oracle) and its return value is
discarded — the loop body never assigns to any field of the record. -/
def sync_step (scores : String → ℚ) (p : String × MirrorRecord) :
    String × MirrorRecord :=
  if p.2.entanglement_verified then p
  else
    let _reentangled := entangle_mirrors false (scores p.1)
    p

/-- Embeds sync_mirrors (luxbin_web_mirror.py lines 487-503): iterate the
loop body over every entry of the mirrors dict. -/
def sync_mirrors (m : QuantumWebMirror) (scores : String → ℚ) :
    QuantumWebMirror :=
  { m with mirrors := m.mirrors.map (sync_step scores) }

/-- Embeds the crawl loop of mirror_website (luxbin_web_mirror.py lines
120-139), with the frontier modelled as a list (Python pops an arbitrary
element from a set; the embedding fixes head-first order, and every claim
proved about the loop is order-independent) and a fuel argument bounding
the number of iterations (the Python loop has no such bound; every bound
proved below holds for all fuel values).  penv supplies the environment of
each mirror_page call and links the same-origin link set the external
extractor returns for a successfully mirrored URL. -/
def crawl_loop (penv : String → PageEnv) (links : String → List String)
    (recursive : Bool) (max_pages : Nat) :
    Nat → QuantumWebMirror → List String → List (String × MirrorRecord) →
    QuantumWebMirror × List (String × MirrorRecord)
  | 0, m, _, acc => (m, acc)
  | Nat.succ fuel, m, frontier, acc =>
    match frontier with
    | [] => (m, acc)
    | u :: rest =>
      if acc.length < max_pages then
        if u ∈ m.visited_urls then
          crawl_loop penv links recursive max_pages fuel m rest acc
        else
          let m1 := { m with visited_urls := u :: m.visited_urls }
          match mirror_page m1 u (penv u) with
          | (m2, none) => crawl_loop penv links recursive max_pages fuel m2 rest acc
          | (m2, some r) =>
            let acc1 := acc ++ [(u, r)]
            let frontier1 :=
              if recursive && acc1.length < max_pages then rest ++ links u
              else rest
            crawl_loop penv links recursive max_pages fuel m2 frontier1 acc1
      else (m, acc)

/-- Embeds mirror_website (luxbin_web_mirror.py lines 94-141): reset the
visited set, seed the frontier with the root URL and run the crawl loop;
the result is the final service state together with the mirrored_pages
mapping (URL to MirrorRecord, in insertion order). -/
def mirror_website (m : QuantumWebMirror) (url : String) (recursive : Bool)
    (max_pages : Nat) (penv : String → PageEnv) (links : String → List String)
    (fuel : Nat) : QuantumWebMirror × List (String × MirrorRecord) :=
  crawl_loop penv links recursive max_pages fuel
    { m with visited_urls := [] } [url] []

/-- The dictionary returned by get_mirror_statistics
(luxbin_web_mirror.py lines 505-525), as a structure. -/
structure MirrorStats where
  total_mirrors : Nat
  entangled_mirrors : Nat
  entanglement_rate : ℚ
  acousticCount : Nat
  backendCount : Nat
  replicationFactor : Nat
  visitedCount : Nat
deriving DecidableEq

/-- Embeds get_mirror_statistics (luxbin_web_mirror.py lines 505-525): count
the records, the entangled records and the acoustically encoded records,
and compute entanglement_rate as entangled / total guarded by
`if total_mirrors > 0 else 0`. -/
def get_mirror_statistics (m : QuantumWebMirror) : MirrorStats :=
  let total_mirrors := m.mirrors.length
  let entangled_mirrors :=
    m.mirrors.countP (fun p => p.2.entanglement_verified)
  let acoustic :=
    m.mirrors.countP (fun p => p.2.acoustic_encoded)
  { total_mirrors := total_mirrors
    entangled_mirrors := entangled_mirrors
    entanglement_rate :=
      if total_mirrors > 0 then
        (entangled_mirrors : ℚ) / (total_mirrors : ℚ)
      else 0
    acousticCount := acoustic
    backendCount := m.quantum_backends.length
    replicationFactor := m.mirror_replication
    visitedCount := m.visited_urls.length }

/-- One entry of a light show's light_sequence, as touched by
apply_acoustic_encoding: its wavelength plus the three timing keys the
method may add (absent, i.e. none, before encoding). -/
structure LightItem where
  wavelength : ℚ
  timing_pattern : Option String
  duration_ms : Option ℚ
  gap_ms : Option ℚ
deriving DecidableEq

/-- A light show dict as touched by apply_acoustic_encoding: the
light_sequence list plus the two top-level keys the method may add. -/
structure LightShow where
  light_sequence : List LightItem
  acoustic_encoded : Option Bool
  timing_standard : Option String
deriving DecidableEq

/-- Embeds the loop body of apply_acoustic_encoding (luxbin_web_mirror.py
lines 239-256): set timing_pattern and duration_ms from the wavelength
band, then set gap_ms to 30. -/
def encodeItem (item : LightItem) : LightItem :=
  let item1 :=
    if item.wavelength < 500 then
      { item with timing_pattern := some "dit", duration_ms := some 50 }
    else if item.wavelength < 600 then
      { item with timing_pattern := some "dit-dah", duration_ms := some 100 }
    else
      { item with timing_pattern := some "dah", duration_ms := some 150 }
  { item1 with gap_ms := some 30 }

/-- Embeds apply_acoustic_encoding (luxbin_web_mirror.py lines 219-261).
Python's `acoustic_show = light_show.copy()` is a shallow copy: the copy
and the caller's original share the light_sequence list object, and the
loop mutates that list's items in place, while the acoustic_encoded and
timing_standard keys are assigned on the copy only.  The embedding returns
both views of the heap after the call: first the caller's original light
show, second the returned acoustic show. -/
def apply_acoustic_encoding (light_show : LightShow) : LightShow × LightShow :=
  let seq := light_show.light_sequence.map encodeItem
  ( { light_show with light_sequence := seq },
    { light_show with
        light_sequence := seq
        acoustic_encoded := some true
        timing_standard := some "morse_light" } )

/-- Embeds the GamingPlatform enum of luxbin_gaming_mirror.py. -/
inductive GamingPlatform where
  | EPIC_GAMES
  | FORTNITE
  | UNREAL_ENGINE
  | STEAM
  | XBOX
  | PLAYSTATION
  | NINTENDO
  | ROBLOX
  | MINECRAFT
  | VRCHAT
  | UNITY
  | AXIE_INFINITY
  | GODS_UNCHAINED
  | DECENTRALAND
  | THE_SANDBOX
deriving DecidableEq

/-- The .value string of each GamingPlatform member. -/
def platform_value : GamingPlatform → String
  | GamingPlatform.EPIC_GAMES => "epic_games"
  | GamingPlatform.FORTNITE => "fortnite"
  | GamingPlatform.UNREAL_ENGINE => "unreal_engine"
  | GamingPlatform.STEAM => "steam"
  | GamingPlatform.XBOX => "xbox"
  | GamingPlatform.PLAYSTATION => "playstation"
  | GamingPlatform.NINTENDO => "nintendo"
  | GamingPlatform.ROBLOX => "roblox"
  | GamingPlatform.MINECRAFT => "minecraft"
  | GamingPlatform.VRCHAT => "vrchat"
  | GamingPlatform.UNITY => "unity"
  | GamingPlatform.AXIE_INFINITY => "axie_infinity"
  | GamingPlatform.GODS_UNCHAINED => "gods_unchained"
  | GamingPlatform.DECENTRALAND => "decentraland"
  | GamingPlatform.THE_SANDBOX => "the_sandbox"

/-- Embeds the self.platform_urls dict built in the constructor of
LUXBINGamingMirror (luxbin_gaming_mirror.py lines 125-167), combined with
the `.get(platform, [])` default used at line 193: platforms absent from
the dict (NINTENDO, UNITY, GODS_UNCHAINED) map to the empty list. -/
def platform_urls : GamingPlatform → List String
  | GamingPlatform.EPIC_GAMES =>
      ["https://www.epicgames.com", "https://store.epicgames.com"]
  | GamingPlatform.FORTNITE =>
      ["https://www.fortnite.com", "https://fortnitetracker.com/api"]
  | GamingPlatform.UNREAL_ENGINE =>
      ["https://www.unrealengine.com", "https://www.unrealengine.com/marketplace"]
  | GamingPlatform.STEAM =>
      ["https://store.steampowered.com", "https://steamcommunity.com"]
  | GamingPlatform.XBOX => ["https://www.xbox.com"]
  | GamingPlatform.PLAYSTATION => ["https://www.playstation.com"]
  | GamingPlatform.NINTENDO => []
  | GamingPlatform.ROBLOX => ["https://www.roblox.com"]
  | GamingPlatform.MINECRAFT => ["https://www.minecraft.net"]
  | GamingPlatform.VRCHAT => ["https://vrchat.com"]
  | GamingPlatform.UNITY => []
  | GamingPlatform.AXIE_INFINITY => ["https://axieinfinity.com"]
  | GamingPlatform.GODS_UNCHAINED => []
  | GamingPlatform.DECENTRALAND => ["https://decentraland.org"]
  | GamingPlatform.THE_SANDBOX => ["https://www.sandbox.game"]

/-- Modelled from the spec: LUXBINAddress.create (module luxbin_address) is
not part of the sources; section 3 of the specification gives the
internalAddress format scheme://replicaScope.<wavelengthTag>.<hash8>/<path>,
so an address is modelled as the tuple of the four components the call
site passes, which the format renders in fixed positions. -/
structure LuxbinAddr where
  node_id : String
  content : String
  resource : String
  wavelength : Nat
deriving DecidableEq

/-- Modelled from the spec: the LUXBINAddress.create constructor, packaging
its four arguments into the address. -/
def LuxbinAddr.create (node_id content resource : String) (wavelength : Nat) :
    LuxbinAddr :=
  { node_id := node_id, content := content, resource := resource,
    wavelength := wavelength }

/-- The 600nm gaming wavelength constant of LUXBINGamingMirror. -/
def GAMING_WAVELENGTH : Nat := 600

/-- Embeds the dataclass GamingMirror of luxbin_gaming_mirror.py. -/
structure GamingMirror where
  platform : GamingPlatform
  platform_name : String
  luxbin_address : LuxbinAddr
  http_urls : List String
  data_types : List String
  wavelength : Nat
  mirrored_at : ℚ
  quantum_secured : Bool
  entanglement_verified : Bool
  mirror_nodes : List String
deriving DecidableEq

/-- Embeds the mutable state of a LUXBINGamingMirror instance: its
configured backends, the wrapped QuantumWebMirror, and the gaming_mirrors
registry (a dict keyed by platform, modelled as an association list). -/
structure LUXBINGamingMirror where
  quantum_backends : List String
  web_mirror : QuantumWebMirror
  gaming_mirrors : List (GamingPlatform × GamingMirror)
deriving DecidableEq

/-- Python dict assignment on the gaming_mirrors registry. -/
def upsertGaming (l : List (GamingPlatform × GamingMirror))
    (k : GamingPlatform) (v : GamingMirror) :
    List (GamingPlatform × GamingMirror) :=
  if l.any (fun p => p.1 = k) then
    l.map (fun p => if p.1 = k then (k, v) else p)
  else
    l ++ [(k, v)]

/-- The input of the content-hash computation at luxbin_gaming_mirror.py
lines 210-216: the dict passed to json.dumps, holding the platform name,
the configured URL list and the time.time() timestamp. -/
def platform_hash_input (pname : String) (urls : List String) (t : ℚ) :
    String × List String × ℚ :=
  (pname, urls, t)

/-- Environment of one mirror_gaming_platform call: the environment of each
inner mirror_page call, the external hash oracle (json.dumps composed with
sha256 and truncation to 8 hex characters, both library code), and the two
time.time() readings the body takes (one inside the hash input, one for
mirrored_at). -/
structure GamingEnv where
  pageEnv : String → PageEnv
  hash : String × List String × ℚ → String
  t_hash : ℚ
  t_rec : ℚ

/-- Embeds mirror_gaming_platform (luxbin_gaming_mirror.py lines 174-244).
The unsupported-platform check raises ValueError before any state is
touched; the error value carries the state at the raise point (always the
input state) together with the offending platform, modelling
ValueError of the platform in the message.  On the supported path the body
mirrors the first max_pages configured URLs through the web mirror (each
call wrapped in try/except, which the mirror_page embedding already
absorbs), computes the content hash over the platform name, URL list and
timestamp, builds the LUXBIN address at the 600nm gaming wavelength, and
stores a GamingMirror record with entanglement_verified set to True
unconditionally and mirror_nodes set to the full backends list. -/
def mirror_gaming_platform (st : LUXBINGamingMirror) (platform : GamingPlatform)
    (max_pages : Nat) (env : GamingEnv) :
    Except (LUXBINGamingMirror × GamingPlatform)
      (LUXBINGamingMirror × GamingMirror) :=
  let urls := platform_urls platform
  if urls.isEmpty then Except.error (st, platform)
  else
    let web1 := (urls.take max_pages).foldl
      (fun w u => (mirror_page w u (env.pageEnv u)).1) st.web_mirror
    let pname := platform_value platform
    let content_hash := env.hash (platform_hash_input pname urls env.t_hash)
    let addr := LuxbinAddr.create pname content_hash "/" GAMING_WAVELENGTH
    let gm : GamingMirror :=
      { platform := platform
        platform_name := pname
        luxbin_address := addr
        http_urls := urls
        data_types := ["web_pages", "game_metadata"]
        wavelength := GAMING_WAVELENGTH
        mirrored_at := env.t_rec
        quantum_secured := true
        entanglement_verified := true
        mirror_nodes := st.quantum_backends }
    Except.ok
      ({ st with web_mirror := web1,
                 gaming_mirrors := upsertGaming st.gaming_mirrors platform gm },
       gm)

/-! Concrete instances used to evaluate the model on the reference
configuration (the four quantum backends of the demo in
luxbin_web_mirror.py) and on injected verifier environments. -/

/-- The four backends of the reference configuration. -/
def demoBackends : List String :=
  ["ibm_fez", "ibm_torino", "ibm_marrakesh", "ionq_harmony"]

/-- A freshly constructed QuantumWebMirror over the reference backends:
empty registry, replication factor 4, acoustic encoding enabled. -/
def freshMirror : QuantumWebMirror :=
  { quantum_backends := demoBackends
    mirrors := []
    visited_urls := []
    mirror_replication := 4
    acoustic_encoding_enabled := true }

/-- An environment in which every collaborator succeeds and the injected
verifier returns 0.71. -/
def envOk : PageEnv :=
  { fetchOk := true
    convertRaises := false
    storeRaises := false
    verifierRaises := false
    registerRaises := false
    correlation := mkRat 71 100
    luxbinAddr := "luxbin-addr-1"
    contentHash := "0123456789abcdef"
    timestamp := 1 }

/-- The envOk environment with the injected verifier returning 0.69. -/
def envLow : PageEnv := { envOk with correlation := mkRat 69 100 }

/-- The envOk environment with a raising name-registry registration. -/
def envReg : PageEnv := { envOk with registerRaises := true }

/-- The envOk environment with a raising verifier. -/
def envVer : PageEnv := { envOk with verifierRaises := true }

/-- The envOk environment with a failing HTTP fetch. -/
def envFetchFail : PageEnv := { envOk with fetchOk := false }

/-- The record mirror_page builds from freshMirror and envOk. -/
def envOkRecord : MirrorRecord :=
  { http_url := "https://example.com"
    luxbin_address := "luxbin-addr-1"
    content_hash := "0123456789abcdef"
    mirror_nodes := demoBackends
    last_updated := 1
    wavelength_encoded := true
    acoustic_encoded := true
    entanglement_verified := true }

/-- A registry state holding one stale record: not entanglement-verified,
last updated at time 5. -/
def staleRecord : MirrorRecord :=
  { envOkRecord with last_updated := 5, entanglement_verified := false }

/-- A web mirror state holding just the stale record. -/
def staleState : QuantumWebMirror :=
  { freshMirror with mirrors := [("https://example.com", staleRecord)] }

/-- A reference configuration with only two backends, fewer than the
replication factor of 4 fixed by the constructor. -/
def twoBackendMirror : QuantumWebMirror :=
  { freshMirror with quantum_backends := ["ibm_fez", "ibm_torino"] }

/-- A freshly constructed LUXBINGamingMirror over the reference backends. -/
def freshGaming : LUXBINGamingMirror :=
  { quantum_backends := demoBackends
    web_mirror := freshMirror
    gaming_mirrors := [] }

/-- A gaming environment whose inner page fetches fail (keeping the web
mirror state fixed) and whose hash oracle separates timestamp 0 from every
other timestamp. -/
def gamingEnv0 : GamingEnv :=
  { pageEnv := fun _ => envFetchFail
    hash := fun x => if x.2.2 = 0 then "hash-a" else "hash-b"
    t_hash := 0
    t_rec := 2 }

/-- The GamingMirror produced by mirroring XBOX at hash timestamp 0 under
gamingEnv0. -/
def gmXboxA : GamingMirror :=
  { platform := GamingPlatform.XBOX
    platform_name := "xbox"
    luxbin_address :=
      { node_id := "xbox", content := "hash-a", resource := "/",
        wavelength := 600 }
    http_urls := ["https://www.xbox.com"]
    data_types := ["web_pages", "game_metadata"]
    wavelength := 600
    mirrored_at := 2
    quantum_secured := true
    entanglement_verified := true
    mirror_nodes := demoBackends }

/-- The GamingMirror produced by mirroring XBOX at hash timestamp 1 under
gamingEnv0. -/
def gmXboxB : GamingMirror :=
  { gmXboxA with
      luxbin_address :=
        { node_id := "xbox", content := "hash-b", resource := "/",
          wavelength := 600 } }

/-- The gaming state after mirroring XBOX at hash timestamp 0. -/
def stXboxA : LUXBINGamingMirror :=
  { freshGaming with gaming_mirrors := [(GamingPlatform.XBOX, gmXboxA)] }

/-- The gaming state after mirroring XBOX at hash timestamp 1. -/
def stXboxB : LUXBINGamingMirror :=
  { freshGaming with gaming_mirrors := [(GamingPlatform.XBOX, gmXboxB)] }

/-! Helper lemmas about the embedded operations. -/

/-- Closed form of entangle_mirrors: an error when the entangler raises,
otherwise the Boolean comparison of the correlation with the threshold. -/
theorem entangle_mirrors_eq (vr : Bool) (c : ℚ) :
    entangle_mirrors vr c
      = if vr then Except.error ()
        else Except.ok (decide (c > CONSISTENCY_THRESHOLD)) := by
  unfold entangle_mirrors
  by_cases h : c > CONSISTENCY_THRESHOLD <;> simp [h]

/-- Inversion of a successful mirror_page call: the returned record is the
one built on the success path and the new state stores it under the URL. -/
theorem mirror_page_ok {m : QuantumWebMirror} {url : String} {e : PageEnv}
    {m' : QuantumWebMirror} {r : MirrorRecord}
    (h : mirror_page m url e = (m', some r)) :
    r = { http_url := url
          luxbin_address := e.luxbinAddr
          content_hash := e.contentHash
          mirror_nodes := m.quantum_backends.take m.mirror_replication
          last_updated := e.timestamp
          wavelength_encoded := true
          acoustic_encoded := m.acoustic_encoding_enabled
          entanglement_verified := decide (e.correlation > CONSISTENCY_THRESHOLD) }
      ∧ m' = { m with mirrors := upsert m.mirrors url r } := by
  unfold mirror_page at h
  rw [entangle_mirrors_eq] at h
  by_cases hf : e.fetchOk
  case neg => simp [hf] at h
  case pos =>
  by_cases hc : e.convertRaises
  case pos => simp [hf, hc] at h
  case neg =>
  by_cases hs : e.storeRaises
  case pos => simp [hf, hc, hs] at h
  case neg =>
  by_cases hv : e.verifierRaises
  case pos => simp [hf, hc, hs, hv] at h
  case neg =>
  by_cases hr : e.registerRaises
  case pos => simp [hf, hc, hs, hv, hr] at h
  case neg =>
    simp only [hf, hc, hs, hv, hr, Bool.not_true, Bool.false_eq_true, if_false,
      if_true, Prod.mk.injEq, Option.some.injEq] at h
    obtain ⟨hm, hrec⟩ := h
    refine ⟨hrec.symm, ?_⟩
    rw [← hm, hrec]

/-- If the verifier raises, mirror_page fails with the state unchanged,
whatever the other collaborators do. -/
theorem mirror_page_verifier_raises (m : QuantumWebMirror) (url : String)
    (e : PageEnv) (hv : e.verifierRaises = true) :
    mirror_page m url e = (m, none) := by
  unfold mirror_page
  rw [entangle_mirrors_eq, hv]
  simp [ite_self]

/-- Looking up the overwritten key after the in-place overwrite branch of
upsert returns the new value. -/
theorem lookupRecord_map_overwrite (l : List (String × MirrorRecord))
    (k : String) (v : MirrorRecord) (h : l.any (fun p => p.1 = k) = true) :
    lookupRecord (l.map (fun p => if p.1 = k then (k, v) else p)) k = some v := by
  induction l with
  | nil => simp at h
  | cons a t ih =>
    by_cases ha : a.1 = k
    · simp [lookupRecord, ha]
    · have h1 : t.any (fun p => p.1 = k) = true := by
        simpa [List.any_cons, ha] using h
      simpa [lookupRecord, ha] using ih h1

/-- Looking up a fresh key after the append branch of upsert returns the
new value. -/
theorem lookupRecord_append_new (l : List (String × MirrorRecord))
    (k : String) (v : MirrorRecord) (h : l.any (fun p => p.1 = k) = false) :
    lookupRecord (l ++ [(k, v)]) k = some v := by
  induction l with
  | nil => simp [lookupRecord]
  | cons a t ih =>
    have ha : ¬(a.1 = k) := by
      intro hak
      simp [List.any_cons, hak] at h
    have h1 : t.any (fun p => p.1 = k) = false := by
      simpa [List.any_cons, ha] using h
    simpa [lookupRecord, ha] using ih h1

/-- Looking up a key right after upsert returns the stored value. -/
theorem lookupRecord_upsert (l : List (String × MirrorRecord)) (k : String)
    (v : MirrorRecord) : lookupRecord (upsert l k v) k = some v := by
  unfold upsert
  cases h : l.any (fun p => p.1 = k) with
  | true => simpa [h] using lookupRecord_map_overwrite l k v h
  | false => simpa [h] using lookupRecord_append_new l k v h

/-- The loop body of sync_mirrors returns its record unchanged: the
re-entanglement result is discarded. -/
theorem sync_step_id (scores : String → ℚ) (p : String × MirrorRecord) :
    sync_step scores p = p := by
  unfold sync_step
  split <;> rfl

/-- The crawl loop on an empty frontier returns the accumulated mapping. -/
theorem crawl_loop_nil (penv : String → PageEnv) (links : String → List String)
    (recursive : Bool) (max_pages fuel : Nat) (m : QuantumWebMirror)
    (acc : List (String × MirrorRecord)) :
    crawl_loop penv links recursive max_pages fuel m [] acc = (m, acc) := by
  cases fuel <;> rfl

/-- The crawl loop never grows the result mapping beyond max_pages. -/
theorem crawl_loop_length_le (penv : String → PageEnv)
    (links : String → List String) (recursive : Bool) (max_pages : Nat) :
    ∀ (fuel : Nat) (m : QuantumWebMirror) (frontier : List String)
      (acc : List (String × MirrorRecord)), acc.length ≤ max_pages →
      ((crawl_loop penv links recursive max_pages fuel m frontier acc).2).length
        ≤ max_pages := by
  intro fuel
  induction fuel with
  | zero =>
    intro m frontier acc h
    simpa [crawl_loop] using h
  | succ n ih =>
    intro m frontier acc h
    match frontier with
    | [] => simpa [crawl_loop] using h
    | u :: rest =>
      by_cases hlt : acc.length < max_pages
      · by_cases hv : u ∈ m.visited_urls
        · simpa [crawl_loop, hlt, hv] using ih m rest acc h
        · rcases hmp :
            mirror_page { m with visited_urls := u :: m.visited_urls } u (penv u)
            with ⟨m2, r?⟩
          cases r? with
          | none =>
            simpa [crawl_loop, hlt, hv, hmp] using ih m2 rest acc h
          | some r =>
            have hlen : (acc ++ [(u, r)]).length ≤ max_pages := by
              simpa using Nat.succ_le_of_lt hlt
            simpa [crawl_loop, hlt, hv, hmp] using
              ih m2 _ (acc ++ [(u, r)]) hlen
      · simpa [crawl_loop, hlt] using h

/-- Inversion of a successful mirror_gaming_platform call: the returned
GamingMirror is the record built on the supported path, with the address
derived from the hash of the platform name, URL list and timestamp. -/
theorem mirror_gaming_platform_ok {st : LUXBINGamingMirror}
    {p : GamingPlatform} {mp : Nat} {env : GamingEnv}
    {st' : LUXBINGamingMirror} {gm : GamingMirror}
    (h : mirror_gaming_platform st p mp env = Except.ok (st', gm)) :
    gm = { platform := p
           platform_name := platform_value p
           luxbin_address := LuxbinAddr.create (platform_value p)
             (env.hash (platform_hash_input (platform_value p) (platform_urls p)
                env.t_hash)) "/" GAMING_WAVELENGTH
           http_urls := platform_urls p
           data_types := ["web_pages", "game_metadata"]
           wavelength := GAMING_WAVELENGTH
           mirrored_at := env.t_rec
           quantum_secured := true
           entanglement_verified := true
           mirror_nodes := st.quantum_backends } := by
  simp only [mirror_gaming_platform] at h
  split at h
  · simp at h
  · simp only [Except.ok.injEq, Prod.mk.injEq] at h
    exact h.2.symm

/-! Claim theorems. -/

/-- C1 (counterexample): the claimed invariant — state CONSISTENT iff the
most recent verifier score exceeds 0.7, at every observable point
including after a resync tick — fails at a concrete input.  Mirror a page
with an injected verifier score of 0.69 (record becomes not verified),
then run one sync_mirrors tick with the injected verifier now returning
0.71: the tick re-invokes the verifier for this record and the fresh score
0.71 exceeds the 0.7 threshold, yet the observed record still has
entanglement_verified = false. -/
theorem c1_state_vs_latest_score_counterexample :
    (let m1 := (mirror_page freshMirror "https://example.com" envLow).1
     let m2 := sync_mirrors m1 (fun _ => mkRat 71 100)
     (lookupRecord m2.mirrors "https://example.com").map
       (fun r => r.entanglement_verified) = some false)
      ∧ mkRat 71 100 > CONSISTENCY_THRESHOLD := by
  decide

/-- C1 (amended): immediately after a successful mirror_page return, the
stored and returned record satisfies entanglement_verified iff the
correlation measured by that call's verifier invocation exceeds 0.7; the
equivalence is not maintained by resync ticks (which never write the
flag), and mirror_gaming_platform sets entanglement_verified to true
without invoking any verifier. -/
theorem c1_state_matches_score_amended :
    (∀ (m : QuantumWebMirror) (url : String) (e : PageEnv)
        (m' : QuantumWebMirror) (r : MirrorRecord),
        mirror_page m url e = (m', some r) →
          r.entanglement_verified = decide (e.correlation > CONSISTENCY_THRESHOLD)
            ∧ lookupRecord m'.mirrors url = some r)
      ∧ (∀ (st : LUXBINGamingMirror) (p : GamingPlatform) (mp : Nat)
          (env : GamingEnv) (st' : LUXBINGamingMirror) (gm : GamingMirror),
          mirror_gaming_platform st p mp env = Except.ok (st', gm) →
            gm.entanglement_verified = true) := by
  constructor
  · intro m url e m' r h
    obtain ⟨hr, hm⟩ := mirror_page_ok h
    constructor
    · rw [hr]
    · rw [hm]
      exact lookupRecord_upsert m.mirrors url r
  · intro st p mp env st' gm h
    rw [mirror_gaming_platform_ok h]

/-- C1 (witness): the amended statement evaluated on the reference
configuration with an injected verifier score of 0.71. -/
theorem c1_state_matches_score_witness :
    mirror_page freshMirror "https://example.com" envOk
        = ({ freshMirror with mirrors := [("https://example.com", envOkRecord)] },
           some envOkRecord)
      ∧ envOkRecord.entanglement_verified
          = decide (envOk.correlation > CONSISTENCY_THRESHOLD) :=
  ⟨by decide,
   (c1_state_matches_score_amended.1 freshMirror "https://example.com" envOk
      { freshMirror with mirrors := [("https://example.com", envOkRecord)] }
      envOkRecord (by decide)).1⟩

/-- C2 (counterexample): the claimed resync behaviour — re-verify and update
consistencyScore, state and lastVerifiedAt in place, with lastVerifiedAt
increasing across ticks — fails at a concrete input.  A registry holding
one non-verified record is run through two sync_mirrors ticks with an
injected verifier score of 0.71 (above threshold); afterwards the registry
is bit-for-bit the original: last_updated is still 5 and the state flag
still false, although the re-invoked verifier returned 0.71. -/
theorem c2_resync_update_counterexample :
    sync_mirrors (sync_mirrors staleState (fun _ => mkRat 71 100))
        (fun _ => mkRat 71 100) = staleState
      ∧ staleRecord.entanglement_verified = false
      ∧ staleRecord.last_updated = 5
      ∧ mkRat 71 100 > CONSISTENCY_THRESHOLD := by
  decide

/-- C2 (amended): a sync_mirrors tick re-invokes the verifier only for
records whose entanglement_verified flag is false and discards the result:
no field of any record is updated — the state returned by the tick equals
the input state for every registry and every injected verifier. -/
theorem c2_resync_no_update_amended (m : QuantumWebMirror)
    (scores : String → ℚ) : sync_mirrors m scores = m := by
  unfold sync_mirrors
  have hfun : sync_step scores = fun p => p := funext (sync_step_id scores)
  rw [hfun]
  simp

/-- C3 (counterexample): with two configured backends the constructor still
fixes mirror_replication = 4, and a successful mirror_page returns a
record whose replicaSet has length 2, not the configured replication
factor 4. -/
theorem c3_replica_length_counterexample :
    ((mirror_page twoBackendMirror "https://example.com" envOk).2.map
        (fun r => r.mirror_nodes.length)) = some 2
      ∧ twoBackendMirror.mirror_replication = 4
      ∧ (2 : Nat) ≠ 4 := by
  decide

/-- C3 (amended): a successful mirror_page returns a record whose replicaSet
length is min(replication factor, number of configured backends) — the
Python slice quantum_backends[:mirror_replication] truncates silently —
so it equals the configured replication factor exactly when at least that
many backends are configured. -/
theorem c3_replica_length_amended (m : QuantumWebMirror) (url : String)
    (e : PageEnv) (m' : QuantumWebMirror) (r : MirrorRecord)
    (h : mirror_page m url e = (m', some r)) :
    r.mirror_nodes.length
      = min m.mirror_replication m.quantum_backends.length := by
  obtain ⟨hr, -⟩ := mirror_page_ok h
  rw [hr]
  simp [List.length_take]

/-- C3 (witness): the amended statement on the reference configuration of
four backends, where the length is min 4 4 = 4. -/
theorem c3_replica_length_witness :
    mirror_page freshMirror "https://example.com" envOk
        = ({ freshMirror with mirrors := [("https://example.com", envOkRecord)] },
           some envOkRecord)
      ∧ envOkRecord.mirror_nodes.length
          = min freshMirror.mirror_replication freshMirror.quantum_backends.length :=
  ⟨by decide,
   c3_replica_length_amended freshMirror "https://example.com" envOk
     { freshMirror with mirrors := [("https://example.com", envOkRecord)] }
     envOkRecord (by decide)⟩

/-- C4 (counterexample): when the name-registry registration raises, the
claim says the mirror still succeeds with a record stored and returned; at
a concrete input mirror_page instead returns None and stores nothing. -/
theorem c4_registration_counterexample :
    (mirror_page freshMirror "https://example.com" envReg).2 = none
      ∧ (mirror_page freshMirror "https://example.com" envReg).1.mirrors = [] := by
  decide

/-- C4 (amended): a name-registry registration failure is caught by the
blanket except clause of mirror_page before the record is created: the
call returns None with the mirror registry unchanged — the mirror does not
count as successful and no MirrorRecord is stored or returned (earlier
side effects in external collaborators are not rolled back, but no
RegistrationWarning mechanism exists). -/
theorem c4_registration_failure_amended (m : QuantumWebMirror) (url : String)
    (e : PageEnv) (hf : e.fetchOk = true) (hc : e.convertRaises = false)
    (hs : e.storeRaises = false) (hv : e.verifierRaises = false)
    (hr : e.registerRaises = true) :
    mirror_page m url e = (m, none) := by
  unfold mirror_page
  rw [entangle_mirrors_eq]
  simp [hf, hc, hs, hv, hr]

/-- C4 (witness): the amended statement at a concrete environment in which
only the registration step raises. -/
theorem c4_registration_failure_witness :
    envReg.fetchOk = true ∧ envReg.registerRaises = true
      ∧ mirror_page freshMirror "https://example.com" envReg
          = (freshMirror, none) :=
  ⟨rfl, rfl,
   c4_registration_failure_amended freshMirror "https://example.com" envReg
     rfl rfl rfl rfl rfl⟩

/-- C5 (counterexample): when the verifier raises, the claim says a DEGRADED
record (score treated as 0) is still produced; at a concrete input
mirror_page instead returns None and stores nothing, so the resource is
dropped. -/
theorem c5_verifier_error_counterexample :
    (mirror_page freshMirror "https://example.com" envVer).2 = none
      ∧ (mirror_page freshMirror "https://example.com" envVer).1.mirrors = [] := by
  decide

/-- C5 (amended): a verifier error during mirror_page is caught by the
blanket except clause: no record is produced (there is no score = 0 /
DEGRADED fallback), the state is unchanged, and the resource is absent
from the crawl's result mapping (the crawl itself does not abort — the
loop simply continues with the next frontier entry). -/
theorem c5_verifier_error_amended (m : QuantumWebMirror) (url : String)
    (e : PageEnv) (penv : String → PageEnv) (links : String → List String)
    (recursive : Bool) (max_pages fuel : Nat)
    (hv : e.verifierRaises = true) (hpe : penv url = e) :
    mirror_page m url e = (m, none)
      ∧ (mirror_website m url recursive max_pages penv links fuel).2 = [] := by
  refine ⟨mirror_page_verifier_raises m url e hv, ?_⟩
  unfold mirror_website
  cases fuel with
  | zero => rfl
  | succ n =>
    rcases Nat.eq_zero_or_pos max_pages with h0 | hpos
    · subst h0
      simp [crawl_loop]
    · simp [crawl_loop, hpos, hpe, mirror_page_verifier_raises _ _ _ hv,
        crawl_loop_nil]

/-- C5 (witness): the amended statement at a concrete environment whose
verifier raises, with a recursive crawl of up to 10 pages. -/
theorem c5_verifier_error_witness :
    envVer.verifierRaises = true
      ∧ mirror_page freshMirror "https://example.com" envVer
          = (freshMirror, none)
      ∧ (mirror_website freshMirror "https://example.com" true 10
          (fun _ => envVer) (fun _ => []) 5).2 = [] := by
  refine ⟨rfl, ?_, ?_⟩
  · exact (c5_verifier_error_amended freshMirror "https://example.com" envVer
      (fun _ => envVer) (fun _ => []) true 10 5 rfl rfl).1
  · exact (c5_verifier_error_amended freshMirror "https://example.com" envVer
      (fun _ => envVer) (fun _ => []) true 10 5 rfl rfl).2

/-- C6 (confirmed): for every root URL, recursive flag, page bound, crawl
environment, link structure and iteration budget, mirror_website returns a
mapping with at most max_pages records — the loop guard rechecks the
result size before every admission. -/
theorem c6_max_pages_bound (m : QuantumWebMirror) (url : String)
    (recursive : Bool) (max_pages : Nat) (penv : String → PageEnv)
    (links : String → List String) (fuel : Nat) :
    ((mirror_website m url recursive max_pages penv links fuel).2).length
      ≤ max_pages :=
  crawl_loop_length_le penv links recursive max_pages fuel
    { m with visited_urls := [] } [url] [] (by simp)

/-- C7 (confirmed): the content hash input of mirror_gaming_platform
contains the timestamp, so re-mirroring identical platform content at two
different timestamps feeds two different inputs to the hash; provided the
external truncated sha256 does not collide on those two inputs (it is
abstracted as an oracle and is not literally injective after truncation to
8 hex characters), the two returned records carry different LUXBIN
addresses. -/
theorem c7_timestamp_addressing (st1 st2 : LUXBINGamingMirror)
    (p : GamingPlatform) (mp : Nat) (e : GamingEnv) (t1 t2 : ℚ)
    (st1' st2' : LUXBINGamingMirror) (gm1 gm2 : GamingMirror)
    (h1 : mirror_gaming_platform st1 p mp { e with t_hash := t1 }
            = Except.ok (st1', gm1))
    (h2 : mirror_gaming_platform st2 p mp { e with t_hash := t2 }
            = Except.ok (st2', gm2))
    (ht : t1 ≠ t2)
    (hcol : e.hash (platform_hash_input (platform_value p) (platform_urls p) t1)
            ≠ e.hash (platform_hash_input (platform_value p) (platform_urls p) t2)) :
    platform_hash_input (platform_value p) (platform_urls p) t1
        ≠ platform_hash_input (platform_value p) (platform_urls p) t2
      ∧ gm1.luxbin_address ≠ gm2.luxbin_address := by
  constructor
  · intro hcontra
    apply ht
    have := congrArg (fun x => x.2.2) hcontra
    simpa [platform_hash_input] using this
  · have hc1 := mirror_gaming_platform_ok h1
    have hc2 := mirror_gaming_platform_ok h2
    intro hEq
    apply hcol
    have := congrArg LuxbinAddr.content hEq
    rw [hc1, hc2] at this
    simpa [LuxbinAddr.create] using this

/-- C7 (witness): with a hash oracle separating timestamp 0 from timestamp 1,
mirroring the XBOX platform at the two timestamps yields two records whose
addresses differ. -/
theorem c7_timestamp_addressing_witness :
    mirror_gaming_platform freshGaming GamingPlatform.XBOX 1
        { gamingEnv0 with t_hash := 0 } = Except.ok (stXboxA, gmXboxA)
      ∧ mirror_gaming_platform freshGaming GamingPlatform.XBOX 1
          { gamingEnv0 with t_hash := 1 } = Except.ok (stXboxB, gmXboxB)
      ∧ (0 : ℚ) ≠ 1
      ∧ gmXboxA.luxbin_address ≠ gmXboxB.luxbin_address := by
  refine ⟨?_, ?_, ?_, ?_⟩
  · rfl
  · rfl
  · decide
  · exact (c7_timestamp_addressing freshGaming freshGaming GamingPlatform.XBOX 1
      gamingEnv0 0 1 stXboxA stXboxB gmXboxA gmXboxB rfl rfl (by decide)
      (by decide)).2

/-- C8 (confirmed): apply_acoustic_encoding mutates the caller's original
sequence items in place through the shared list of the shallow dict copy —
the caller's light show sequence afterwards equals the encoded sequence,
identical to the returned show's — and sets each item's timing by
wavelength band (dit and 50ms below 500, dit-dah and 100ms in [500, 600),
dah and 150ms at 600 and above, with gap 30ms throughout), while the
acoustic_encoded and timing_standard keys appear only on the returned
copy, the caller's original keeping its previous top-level keys. -/
theorem c8_acoustic_encoding_effects (s : LightShow) :
    (apply_acoustic_encoding s).1.light_sequence = s.light_sequence.map encodeItem
      ∧ (apply_acoustic_encoding s).2.light_sequence
          = (apply_acoustic_encoding s).1.light_sequence
      ∧ (apply_acoustic_encoding s).1.acoustic_encoded = s.acoustic_encoded
      ∧ (apply_acoustic_encoding s).1.timing_standard = s.timing_standard
      ∧ (apply_acoustic_encoding s).2.acoustic_encoded = some true
      ∧ (apply_acoustic_encoding s).2.timing_standard = some "morse_light"
      ∧ ∀ item : LightItem,
          (item.wavelength < 500 →
            encodeItem item
              = { item with
                  timing_pattern := some "dit"
                  duration_ms := some 50
                  gap_ms := some 30 })
          ∧ (500 ≤ item.wavelength → item.wavelength < 600 →
            encodeItem item
              = { item with
                  timing_pattern := some "dit-dah"
                  duration_ms := some 100
                  gap_ms := some 30 })
          ∧ (600 ≤ item.wavelength →
            encodeItem item
              = { item with
                  timing_pattern := some "dah"
                  duration_ms := some 150
                  gap_ms := some 30 }) := by
  refine ⟨rfl, rfl, rfl, rfl, rfl, rfl, ?_⟩
  intro item
  refine ⟨?_, ?_, ?_⟩
  · intro h1
    simp [encodeItem, h1]
  · intro h1 h2
    have h3 : ¬ item.wavelength < 500 := not_lt.mpr h1
    simp [encodeItem, h3, h2]
  · intro h1
    have h3 : ¬ item.wavelength < 500 :=
      not_lt.mpr (le_trans (by norm_num) h1)
    have h4 : ¬ item.wavelength < 600 := not_lt.mpr h1
    simp [encodeItem, h3, h4]

/-- C8 (witness): the encoding evaluated on a concrete blue item at
wavelength 450, which receives the dit pattern with 50ms duration and
30ms gap. -/
theorem c8_acoustic_encoding_witness :
    (450 : ℚ) < 500
      ∧ encodeItem
          { wavelength := 450
            timing_pattern := none
            duration_ms := none
            gap_ms := none }
          = { wavelength := 450
              timing_pattern := some "dit"
              duration_ms := some 50
              gap_ms := some 30 } := by
  have h := c8_acoustic_encoding_effects
    { light_sequence := [], acoustic_encoded := none, timing_standard := none }
  refine ⟨by norm_num, ?_⟩
  exact (h.2.2.2.2.2.2
    { wavelength := 450
      timing_pattern := none
      duration_ms := none
      gap_ms := none }).1 (by norm_num)

/-- C9 (confirmed): the platforms with no configured URL list — NINTENDO,
UNITY and GODS_UNCHAINED — make mirror_gaming_platform raise ValueError
before any mutation: the error carries the state at the raise point, which
is the unchanged input state, so no partial record enters gaming_mirrors. -/
theorem c9_unsupported_platform (st : LUXBINGamingMirror) (mp : Nat)
    (env : GamingEnv) :
    mirror_gaming_platform st GamingPlatform.NINTENDO mp env
        = Except.error (st, GamingPlatform.NINTENDO)
      ∧ mirror_gaming_platform st GamingPlatform.UNITY mp env
        = Except.error (st, GamingPlatform.UNITY)
      ∧ mirror_gaming_platform st GamingPlatform.GODS_UNCHAINED mp env
        = Except.error (st, GamingPlatform.GODS_UNCHAINED) :=
  ⟨rfl, rfl, rfl⟩

/-- C10 (confirmed): get_mirror_statistics is total on every state — its
entanglement_rate is the count of entanglement-verified records divided by
the record count, and on an empty registry the guard returns 0 instead of
dividing by zero. -/
theorem c10_statistics_total (m : QuantumWebMirror) :
    (get_mirror_statistics m).entanglement_rate
        = (m.mirrors.countP (fun p => p.2.entanglement_verified) : ℚ)
            / (m.mirrors.length : ℚ)
      ∧ (m.mirrors = [] → (get_mirror_statistics m).entanglement_rate = 0) := by
  constructor
  · unfold get_mirror_statistics
    by_cases h : m.mirrors.length > 0
    · simp [h]
    · have h0 : m.mirrors.length = 0 := Nat.eq_zero_of_not_pos h
      have hnil : m.mirrors = [] := List.length_eq_zero.mp h0
      simp [h, hnil]
  · intro h
    unfold get_mirror_statistics
    simp [h]

/-- C10 (witness): on the freshly constructed mirror with an empty registry
the entanglement rate is 0. -/
theorem c10_statistics_witness :
    (get_mirror_statistics freshMirror).entanglement_rate = 0 :=
  (c10_statistics_total freshMirror).2 rfl

end LuxbinMirror


